import Mathlib

/-!
Shallow embedding of the mcpify-rest-apis repository:
- `RetailDemo`: the Flask demo service of src/app/main.py (in-memory
  collections of orders, products, customers, purchases and their route
  handlers), with JSON bodies modelled as records whose possibly-absent
  keys are `Option` fields and floats modelled as rationals.
- `Provisioner`: the control-plane-facing pieces of
  src/agentcore-integration/deploy_retail_gateway_boto3.py that the claims
  mention (`wait_for_gateway_ready`, `get_or_create_service_role`), with the
  cloud control plane modelled as an explicit environment of responses.
-/

namespace RetailDemo

/-- A line item of an order request body: a JSON object whose keys may be
absent, read with `item.get("price", 0)` and `item.get("quantity", 1)` in
the source. -/
structure Item where
  product_id : Option String
  name : Option String
  quantity : Option ℚ
  price : Option ℚ
deriving DecidableEq

/-- An order record as stored in the `orders` list. -/
structure Order where
  id : String
  customer_id : Option String
  items : List Item
  total : ℚ
  status : String
  created_at : String
deriving DecidableEq

/-- A product record of the static `products` seed list. -/
structure Product where
  id : String
  name : String
  price : ℚ
  category : String
  stock : ℕ
deriving DecidableEq

/-- A customer record of the static `customers` seed list. -/
structure Customer where
  id : String
  name : String
  email : String
  phone : String
deriving DecidableEq

/-- A purchase record as stored in the `purchases` list. -/
structure Purchase where
  id : String
  order_id : Option String
  payment_method : String
  payment_status : String
  amount : Option ℚ
  transaction_id : String
  processed_at : String
deriving DecidableEq

/-- The four in-process collections the handlers read and mutate. -/
structure ServiceState where
  orders : List Order
  products : List Product
  customers : List Customer
  purchases : List Purchase
deriving DecidableEq

/-- JSON body of POST /order: `customer_id` and `items` may be absent. -/
structure OrderRequest where
  customer_id : Option String
  items : Option (List Item)
deriving DecidableEq

/-- JSON body of POST /purchase: every key may be absent. -/
structure PurchaseRequest where
  order_id : Option String
  payment_method : Option String
  amount : Option ℚ
deriving DecidableEq

/-- Inventory projection row built by GET /inventory. -/
structure InventoryRow where
  product_id : String
  name : String
  stock : ℕ
deriving DecidableEq

/-- Body of GET /analytics/sales. -/
structure SalesAnalytics where
  total_sales : ℚ
  completed_orders : ℕ
  average_order_value : ℚ
deriving DecidableEq

/-- The values the handlers obtain from the outside world at request time:
the `uuid.uuid4()` draws and `datetime.utcnow()`. -/
structure Fresh where
  uuid1 : String
  uuid2 : String
  now : String
deriving DecidableEq

/-- JSON responses of the demo service, one constructor per body shape;
`notFound` is the `{"error": ...}, 404` body. -/
inductive Response where
  | health (status : String) (timestamp : String)
  | ordersList (orders : List Order) (count : ℕ)
  | orderRec (o : Order)
  | orderCreated (o : Order)
  | purchaseCreated (p : Purchase)
  | purchasesList (purchases : List Purchase) (count : ℕ)
  | productsList (products : List Product) (count : ℕ)
  | productRec (p : Product)
  | customersList (customers : List Customer) (count : ℕ)
  | customerRec (c : Customer)
  | inventoryList (inventory : List InventoryRow) (total_products : ℕ)
  | analytics (a : SalesAnalytics)
  | notFound (error : String)
deriving DecidableEq

/-- HTTP status code attached to each response: 201 for the two POST
creations, 404 for the error body, 200 otherwise. -/
def statusOf : Response → ℕ
  | .orderCreated _ => 201
  | .purchaseCreated _ => 201
  | .notFound _ => 404
  | _ => 200

/-- First order of the seed `orders` list of main.py. -/
def ord001 : Order :=
  { id := "ord_001", customer_id := some "cust_001",
    items := [⟨some "prod_001", some "Laptop", some 1, some 999.99⟩,
              ⟨some "prod_002", some "Mouse", some 2, some 29.99⟩],
    total := 1059.97, status := "completed", created_at := "2024-01-15T10:30:00Z" }

/-- Second order of the seed `orders` list of main.py. -/
def ord002 : Order :=
  { id := "ord_002", customer_id := some "cust_002",
    items := [⟨some "prod_003", some "Keyboard", some 1, some 79.99⟩],
    total := 79.99, status := "pending", created_at := "2024-01-16T14:20:00Z" }

/-- The seed `orders` list of main.py. -/
def seedOrders : List Order := [ord001, ord002]

/-- The seed `products` list of main.py. -/
def seedProducts : List Product :=
  [⟨"prod_001", "Laptop", 999.99, "Electronics", 50⟩,
   ⟨"prod_002", "Mouse", 29.99, "Electronics", 100⟩,
   ⟨"prod_003", "Keyboard", 79.99, "Electronics", 75⟩,
   ⟨"prod_004", "Monitor", 299.99, "Electronics", 30⟩]

/-- The seed `customers` list of main.py. -/
def seedCustomers : List Customer :=
  [⟨"cust_001", "John Doe", "john@example.com", "+1-555-0123"⟩,
   ⟨"cust_002", "Jane Smith", "jane@example.com", "+1-555-0124"⟩]

/-- The seed `purchases` list of main.py. -/
def seedPurchases : List Purchase :=
  [{ id := "pur_001", order_id := some "ord_001", payment_method := "credit_card",
     payment_status := "completed", amount := some 1059.97,
     transaction_id := "txn_abc123", processed_at := "2024-01-15T10:35:00Z" }]

/-- The process state at startup. -/
def ServiceState.initial : ServiceState :=
  { orders := seedOrders, products := seedProducts,
    customers := seedCustomers, purchases := seedPurchases }

/-- Contribution of one submitted item to an order total:
`item.get("price", 0) * item.get("quantity", 1)`. -/
def itemContrib (it : Item) : ℚ :=
  it.price.getD 0 * it.quantity.getD 1

/-- GET /health. -/
def health_check (fresh : Fresh) : Response :=
  .health "healthy" fresh.now

/-- GET /orders. -/
def get_orders (st : ServiceState) : Response :=
  .ordersList st.orders st.orders.length

/-- GET /order/{order_id}: first order with matching id, else 404 body. -/
def get_order (st : ServiceState) (order_id : String) : Response :=
  match st.orders.find? (fun o => o.id == order_id) with
  | some o => .orderRec o
  | none => .notFound "Order not found"

/-- POST /order: build the new order (total summed over submitted items),
append it to `orders`, return it. -/
def create_order (st : ServiceState) (data : OrderRequest) (fresh : Fresh) :
    Order × ServiceState :=
  let new_order : Order :=
    { id := "ord_" ++ fresh.uuid1.take 8
      customer_id := data.customer_id
      items := data.items.getD []
      total := ((data.items.getD []).map itemContrib).sum
      status := "pending"
      created_at := fresh.now ++ "Z" }
  (new_order, { st with orders := st.orders ++ [new_order] })

/-- POST /purchase: build the new purchase (payment_method defaulted to
"credit_card", payment_status hardcoded "completed"), append it. -/
def create_purchase (st : ServiceState) (data : PurchaseRequest) (fresh : Fresh) :
    Purchase × ServiceState :=
  let new_purchase : Purchase :=
    { id := "pur_" ++ fresh.uuid1.take 8
      order_id := data.order_id
      payment_method := data.payment_method.getD "credit_card"
      payment_status := "completed"
      amount := data.amount
      transaction_id := "txn_" ++ fresh.uuid2.take 8
      processed_at := fresh.now ++ "Z" }
  (new_purchase, { st with purchases := st.purchases ++ [new_purchase] })

/-- GET /purchases. -/
def get_purchases (st : ServiceState) : Response :=
  .purchasesList st.purchases st.purchases.length

/-- GET /products. -/
def get_products (st : ServiceState) : Response :=
  .productsList st.products st.products.length

/-- GET /product/{product_id}. -/
def get_product (st : ServiceState) (product_id : String) : Response :=
  match st.products.find? (fun p => p.id == product_id) with
  | some p => .productRec p
  | none => .notFound "Product not found"

/-- GET /customers. -/
def get_customers (st : ServiceState) : Response :=
  .customersList st.customers st.customers.length

/-- GET /customer/{customer_id}. -/
def get_customer (st : ServiceState) (customer_id : String) : Response :=
  match st.customers.find? (fun c => c.id == customer_id) with
  | some c => .customerRec c
  | none => .notFound "Customer not found"

/-- GET /inventory. -/
def get_inventory (st : ServiceState) : Response :=
  let inventory := st.products.map (fun p => InventoryRow.mk p.id p.name p.stock)
  .inventoryList inventory inventory.length

/-- The record built by GET /analytics/sales: totals over completed
orders, average guarded by the `if completed_orders > 0` test of the
source. -/
def sales_analytics (st : ServiceState) : SalesAnalytics :=
  let total_sales := ((st.orders.filter (fun o => o.status == "completed")).map Order.total).sum
  let completed_orders := (st.orders.filter (fun o => o.status == "completed")).length
  { total_sales := total_sales
    completed_orders := completed_orders
    average_order_value :=
      if completed_orders > 0 then total_sales / (completed_orders : ℚ) else 0 }

/-- GET /analytics/sales. -/
def get_sales_analytics (st : ServiceState) : Response :=
  .analytics (sales_analytics st)

/-- One request to any endpoint of the demo service. -/
inductive Request where
  | health
  | getOrders
  | getOrder (order_id : String)
  | postOrder (data : OrderRequest)
  | postPurchase (data : PurchaseRequest)
  | getPurchases
  | getProducts
  | getProduct (product_id : String)
  | getCustomers
  | getCustomer (customer_id : String)
  | getInventory
  | getSalesAnalytics
deriving DecidableEq

/-- Route dispatch: each request runs its handler over the current state;
only the two POST handlers return a changed state. -/
def handle (st : ServiceState) (req : Request) (fresh : Fresh) :
    Response × ServiceState :=
  match req with
  | .health => (health_check fresh, st)
  | .getOrders => (get_orders st, st)
  | .getOrder oid => (get_order st oid, st)
  | .postOrder d =>
      let r := create_order st d fresh
      (.orderCreated r.1, r.2)
  | .postPurchase d =>
      let r := create_purchase st d fresh
      (.purchaseCreated r.1, r.2)
  | .getPurchases => (get_purchases st, st)
  | .getProducts => (get_products st, st)
  | .getProduct pid => (get_product st pid, st)
  | .getCustomers => (get_customers st, st)
  | .getCustomer cid => (get_customer st cid, st)
  | .getInventory => (get_inventory st, st)
  | .getSalesAnalytics => (get_sales_analytics st, st)

/-- The `validate_api_key` decorator: reads the optional X-API-Key /
X-Dummy-Auth headers, emits a log line, and calls the wrapped handler on
its original arguments unchanged. First component: the log; second: the
wrapped handler's result. -/
def validate_api_key (f : α → β) (headers : List (String × String)) (a : α) :
    List String × β :=
  let api_key :=
    match (headers.find? (fun h : String × String => h.1 == "X-API-Key")).map Prod.snd with
    | some k => some k
    | none => (headers.find? (fun h : String × String => h.1 == "X-Dummy-Auth")).map Prod.snd
  match api_key with
  | some k => (["Request with API key: " ++ k.take 10 ++ "..."], f a)
  | none => (["Request without API key (public access)"], f a)

/-- A fixed draw of request-time values, used to evaluate the handlers on
concrete inputs. -/
def fresh0 : Fresh :=
  { uuid1 := "9f1c2d3e-aaaa-bbbb-cccc-000000000000"
    uuid2 := "7a7b7c7d-dddd-eeee-ffff-111111111111"
    now := "2024-02-01T09:00:00" }

/-- The POST /order body of the spec demo:
items = [\x7bprice: 10, quantity: 2\x7d]. -/
def demoOrderReq : OrderRequest :=
  { customer_id := some "cust_001"
    items := some [{ product_id := none, name := none, quantity := some 2, price := some 10 }] }

/-- The POST /purchase body of the spec demo: amount 50, no
payment_method. -/
def demoPurchaseReq : PurchaseRequest :=
  { order_id := some "ord_001", payment_method := none, amount := some 50 }

end RetailDemo

namespace Provisioner

/-- Outcome of one `get_gateway` control-plane call during polling: either a
response carrying a `status` string, or a raised exception. -/
inductive PollResult where
  | status (s : String)
  | exn
deriving DecidableEq

/-- One `get_gateway` outcome per call index: the control plane as seen by
the polling loop. -/
def PollSeq : Type := ℕ → PollResult

/-- The `while time.time() - start_time < max_wait_time` loop of
`wait_for_gateway_ready`: `elapsed` is the wall-clock seconds consumed so
far (each non-terminal iteration sleeps 10 seconds, the calls themselves
are instantaneous in this model), `i` the index of the next
`get_gateway` call. READY returns True, FAILED returns False, any other
status or an exception sleeps 10 seconds and retries; leaving the loop
returns False. -/
def wait_loop (responses : PollSeq) (max_wait : ℕ) (elapsed : ℕ) (i : ℕ) : Bool :=
  if _h : elapsed < max_wait then
    match responses i with
    | .status s =>
        if s = "READY" then true
        else if s = "FAILED" then false
        else wait_loop responses max_wait (elapsed + 10) (i + 1)
    | .exn => wait_loop responses max_wait (elapsed + 10) (i + 1)
  else false
termination_by max_wait - elapsed
decreasing_by all_goals omega

/-- `wait_for_gateway_ready` with its default wall-clock budget
`max_wait_time=300`, started at elapsed time 0 and call index 0. -/
def wait_for_gateway_ready (responses : PollSeq) : Bool :=
  wait_loop responses 300 0 0

/-- A poll outcome that neither succeeds nor aborts the loop: an exception
or a status other than READY and FAILED. -/
def continues : PollResult → Prop
  | .status s => s ≠ "READY" ∧ s ≠ "FAILED"
  | .exn => True

/-- The IAM / STS control plane as `get_or_create_service_role` sees it:
the response of each cloud call it may issue. `getRole = none` models
`NoSuchEntityException`; `createPolicy = none` models
`EntityAlreadyExistsException`. -/
structure IamEnv where
  getRole : Option String
  createRoleArn : String
  createPolicy : Option String
  accountId : String
deriving DecidableEq

/-- What `get_or_create_service_role` returned and which policy ARN it
attached to the role (`none` on the existing-role path, which attaches
nothing). -/
structure RoleResult where
  returnedArn : String
  attachedPolicyArn : Option String
deriving DecidableEq

/-- `get_or_create_service_role`: return the existing role's ARN if
`get_role` succeeds; otherwise create the role, create (or on
EntityAlreadyExists reconstruct from account id and fixed name) the
policy, attach it, and return the ARN reported by `create_role`. -/
def get_or_create_service_role (env : IamEnv) (unique_suffix : String) : RoleResult :=
  match env.getRole with
  | some arn => { returnedArn := arn, attachedPolicyArn := none }
  | none =>
      let policy_name := "AgentCoreGatewayPolicy-" ++ unique_suffix
      let policy_arn :=
        match env.createPolicy with
        | some arn => arn
        | none => "arn:aws:iam::" ++ env.accountId ++ ":policy/" ++ policy_name
      { returnedArn := env.createRoleArn, attachedPolicyArn := some policy_arn }

/-- A mocked control plane reporting [CREATING, CREATING, READY, READY, ...]. -/
def seqReady : PollSeq := fun i =>
  if i = 0 then .status "CREATING" else if i = 1 then .status "CREATING" else .status "READY"

/-- A mocked control plane reporting [CREATING, FAILED, FAILED, ...]. -/
def seqFailed : PollSeq := fun i =>
  if i = 0 then .status "CREATING" else .status "FAILED"

/-- A mocked control plane stuck reporting CREATING forever. -/
def seqStuck : PollSeq := fun _ => .status "CREATING"

/-- A mocked control plane whose every `get_gateway` call raises. -/
def seqExn : PollSeq := fun _ => .exn

/-- A concrete IAM environment: the role does not exist yet
(`NoSuchEntityException` on `get_role`), `create_role` reports the new
role's ARN, and `create_policy` raises `EntityAlreadyExistsException`. -/
def envExists : IamEnv :=
  { getRole := none
    createRoleArn :=
      "arn:aws:iam::123456789012:role/AmazonBedrockAgentCoreGatewayServiceRole-abc12345"
    createPolicy := none
    accountId := "123456789012" }

/-- Leaving the while loop (budget exhausted) returns False. -/
theorem wait_loop_stop (r : PollSeq) (m e i : ℕ) (h : ¬ e < m) :
    wait_loop r m e i = false := by
  rw [wait_loop]
  simp [h]

/-- A READY status inside the budget returns True at once. -/
theorem wait_loop_ready (r : PollSeq) (m e i : ℕ) (h : e < m)
    (hr : r i = .status "READY") : wait_loop r m e i = true := by
  rw [wait_loop]
  simp [h, hr]

/-- A FAILED status inside the budget returns False at once. -/
theorem wait_loop_failed (r : PollSeq) (m e i : ℕ) (h : e < m)
    (hr : r i = .status "FAILED") : wait_loop r m e i = false := by
  rw [wait_loop]
  simp [h, hr]

/-- Any other status, and any exception, sleeps 10 seconds and retries. -/
theorem wait_loop_continue (r : PollSeq) (m e i : ℕ) (h : e < m)
    (hc : continues (r i)) :
    wait_loop r m e i = wait_loop r m (e + 10) (i + 1) := by
  conv_lhs => rw [wait_loop]
  cases hri : r i with
  | status s =>
      rw [hri] at hc
      simp [h, hc.1, hc.2]
  | exn => simp [h]

/-- If every poll outcome merely continues the loop, the loop returns False
within `n` further seconds of budget. -/
theorem wait_loop_timeout (r : PollSeq) (m : ℕ) (hc : ∀ j, continues (r j)) :
    ∀ n e i, m ≤ e + n → wait_loop r m e i = false := by
  intro n
  induction n with
  | zero =>
      intro e i hle
      exact wait_loop_stop r m e i (by omega)
  | succ k ih =>
      intro e i hle
      by_cases h : e < m
      · rw [wait_loop_continue r m e i h (hc i)]
        exact ih (e + 10) (i + 1) (by omega)
      · exact wait_loop_stop r m e i h

end Provisioner

namespace RetailDemo

/-- The decorated handler's response is exactly the wrapped handler's
value, whatever the headers held. -/
theorem validate_api_key_snd (f : α → β) (hs : List (String × String)) (a : α) :
    (validate_api_key f hs a).2 = f a := by
  unfold validate_api_key
  cases (hs.find? (fun h : String × String => h.1 == "X-API-Key")).map Prod.snd with
  | some k => rfl
  | none =>
      cases (hs.find? (fun h : String × String => h.1 == "X-Dummy-Auth")).map Prod.snd with
      | some k => rfl
      | none => rfl

/-- C1: POST /order with items [(price 10, quantity 2)] creates an order
with total 20 and status "pending", and a subsequent GET /orders returns a
list containing it; in general the created total is the sum over submitted
items of price times quantity, and every endpoint keeps each existing
order record (hence its total) in the collection unchanged. -/
theorem c1_post_order_total_and_listing (st : ServiceState) (fresh fresh2 : Fresh)
    (cid pid nm : Option String) (d : OrderRequest) (req : Request) :
    (create_order st ⟨cid, some [⟨pid, nm, some 2, some 10⟩]⟩ fresh).1.total = 20 ∧
    (create_order st ⟨cid, some [⟨pid, nm, some 2, some 10⟩]⟩ fresh).1.status = "pending" ∧
    get_orders (create_order st ⟨cid, some [⟨pid, nm, some 2, some 10⟩]⟩ fresh).2 =
      .ordersList ((create_order st ⟨cid, some [⟨pid, nm, some 2, some 10⟩]⟩ fresh).2.orders)
        ((create_order st ⟨cid, some [⟨pid, nm, some 2, some 10⟩]⟩ fresh).2.orders.length) ∧
    (create_order st ⟨cid, some [⟨pid, nm, some 2, some 10⟩]⟩ fresh).1 ∈
      (create_order st ⟨cid, some [⟨pid, nm, some 2, some 10⟩]⟩ fresh).2.orders ∧
    (create_order st d fresh).1.total =
      ((d.items.getD []).map (fun it => it.price.getD 0 * it.quantity.getD 1)).sum ∧
    (∀ o ∈ st.orders, o ∈ (handle st req fresh2).2.orders) := by
  refine ⟨?_, rfl, rfl, ?_, rfl, ?_⟩
  · show ((([⟨pid, nm, some 2, some 10⟩] : List Item).map itemContrib).sum : ℚ) = 20
    simp [itemContrib]
    norm_num
  · show _ ∈ st.orders ++ [_]
    exact List.mem_append_right _ (List.mem_cons_self _ _)
  · intro o ho
    cases req <;>
      simp only [handle, create_order, create_purchase] <;>
      first
        | exact ho
        | exact List.mem_append_left _ ho

/-- C1 witness: the demo body evaluated at the initial state yields total
20, and the seed order ord_001 survives a GET /orders request. -/
theorem c1_witness :
    (create_order ServiceState.initial demoOrderReq fresh0).1.total = 20 ∧
    ord001 ∈ (handle ServiceState.initial .getOrders fresh0).2.orders := by
  constructor
  · exact (c1_post_order_total_and_listing ServiceState.initial fresh0 fresh0
      (some "cust_001") none none demoOrderReq .getOrders).1
  · exact (c1_post_order_total_and_listing ServiceState.initial fresh0 fresh0
      (some "cust_001") none none demoOrderReq .getOrders).2.2.2.2.2 ord001
      (List.mem_cons_self _ _)

/-- C4: GET /analytics/sales is division-safe: its completed_orders field
counts exactly the completed orders, with zero of them the average is 0,
and with at least one it is total_sales divided by the count. -/
theorem c4_sales_analytics_zero_safe (st : ServiceState) :
    get_sales_analytics st = .analytics (sales_analytics st) ∧
    ((sales_analytics st).completed_orders = 0 ↔ ∀ o ∈ st.orders, o.status ≠ "completed") ∧
    ((sales_analytics st).completed_orders = 0 →
      (sales_analytics st).average_order_value = 0) ∧
    (0 < (sales_analytics st).completed_orders →
      (sales_analytics st).average_order_value =
        (sales_analytics st).total_sales / ((sales_analytics st).completed_orders : ℚ)) := by
  refine ⟨rfl, ?_, ?_, ?_⟩
  · simp [sales_analytics, List.length_eq_zero, List.filter_eq_nil_iff]
  · intro h
    simp only [sales_analytics] at h ⊢
    simp [h]
  · intro h
    simp only [sales_analytics] at h ⊢
    simp [Nat.pos_iff_ne_zero.mp h, h]

/-- C4 witness: at the seed state (one completed order) the average is
total divided by the count; with the orders list emptied it is 0. -/
theorem c4_witness :
    ((sales_analytics ServiceState.initial).completed_orders = 0 →
      (sales_analytics ServiceState.initial).average_order_value = 0) ∧
    (0 < (sales_analytics ServiceState.initial).completed_orders →
      (sales_analytics ServiceState.initial).average_order_value =
        (sales_analytics ServiceState.initial).total_sales /
          ((sales_analytics ServiceState.initial).completed_orders : ℚ)) ∧
    (sales_analytics { ServiceState.initial with orders := [] }).average_order_value = 0 := by
  refine ⟨(c4_sales_analytics_zero_safe ServiceState.initial).2.2.1,
    (c4_sales_analytics_zero_safe ServiceState.initial).2.2.2, ?_⟩
  exact (c4_sales_analytics_zero_safe { ServiceState.initial with orders := [] }).2.2.1 rfl

/-- C5: no endpoint ever changes the products collection: every product
record, stock field included, is identical before and after any request;
in particular POST /purchase decrements no stock. -/
theorem c5_products_never_mutated (st : ServiceState) (req : Request) (fresh : Fresh) :
    (handle st req fresh).2.products = st.products := by
  cases req <;> simp [handle, create_order, create_purchase]

/-- C6: for each of GET /order/(id), GET /product/(id), GET /customer/(id),
the response is the 404 error body exactly when no record of the
corresponding collection carries the id, and when one does, a matching
record is returned with status 200; the error body has status 404. -/
theorem c6_lookup_404_iff_missing (st : ServiceState) (oid pid cid : String) (fresh : Fresh) :
    ((handle st (.getOrder oid) fresh).1 = .notFound "Order not found" ↔
      ∀ o ∈ st.orders, o.id ≠ oid) ∧
    ((∃ o ∈ st.orders, o.id = oid) →
      ∃ o ∈ st.orders, o.id = oid ∧ (handle st (.getOrder oid) fresh).1 = .orderRec o ∧
        statusOf (handle st (.getOrder oid) fresh).1 = 200) ∧
    ((handle st (.getProduct pid) fresh).1 = .notFound "Product not found" ↔
      ∀ p ∈ st.products, p.id ≠ pid) ∧
    ((∃ p ∈ st.products, p.id = pid) →
      ∃ p ∈ st.products, p.id = pid ∧ (handle st (.getProduct pid) fresh).1 = .productRec p ∧
        statusOf (handle st (.getProduct pid) fresh).1 = 200) ∧
    ((handle st (.getCustomer cid) fresh).1 = .notFound "Customer not found" ↔
      ∀ c ∈ st.customers, c.id ≠ cid) ∧
    ((∃ c ∈ st.customers, c.id = cid) →
      ∃ c ∈ st.customers, c.id = cid ∧ (handle st (.getCustomer cid) fresh).1 = .customerRec c ∧
        statusOf (handle st (.getCustomer cid) fresh).1 = 200) ∧
    statusOf (.notFound "Order not found") = 404 ∧
    statusOf (.notFound "Product not found") = 404 ∧
    statusOf (.notFound "Customer not found") = 404 := by
  refine ⟨?_, ?_, ?_, ?_, ?_, ?_, rfl, rfl, rfl⟩
  · show get_order st oid = _ ↔ _
    unfold get_order
    cases hf : st.orders.find? (fun o => o.id == oid) with
    | some o =>
        have hp := List.find?_some hf
        have ho : o ∈ st.orders := List.mem_of_find?_eq_some hf
        constructor
        · intro h
          exact absurd h (by simp)
        · intro h
          exact absurd (show o.id = oid by simpa using hp) (h o ho)
    | none =>
        simp only [true_iff]
        intro o ho
        simpa using List.find?_eq_none.mp hf o ho
  · rintro ⟨o, ho, hid⟩
    have hsome : (st.orders.find? (fun o => o.id == oid)).isSome := by
      rw [List.find?_isSome]
      exact ⟨o, ho, by simp [hid]⟩
    obtain ⟨a, ha⟩ := Option.isSome_iff_exists.mp hsome
    have hresp : get_order st oid = Response.orderRec a := by
      unfold get_order
      rw [ha]
    exact ⟨a, List.mem_of_find?_eq_some ha, by simpa using List.find?_some ha, hresp,
      by show statusOf (get_order st oid) = 200; rw [hresp]; rfl⟩
  · show get_product st pid = _ ↔ _
    unfold get_product
    cases hf : st.products.find? (fun p => p.id == pid) with
    | some p =>
        have hp := List.find?_some hf
        have hm : p ∈ st.products := List.mem_of_find?_eq_some hf
        constructor
        · intro h
          exact absurd h (by simp)
        · intro h
          exact absurd (show p.id = pid by simpa using hp) (h p hm)
    | none =>
        simp only [true_iff]
        intro p hm
        simpa using List.find?_eq_none.mp hf p hm
  · rintro ⟨p, hm, hid⟩
    have hsome : (st.products.find? (fun p => p.id == pid)).isSome := by
      rw [List.find?_isSome]
      exact ⟨p, hm, by simp [hid]⟩
    obtain ⟨a, ha⟩ := Option.isSome_iff_exists.mp hsome
    have hresp : get_product st pid = Response.productRec a := by
      unfold get_product
      rw [ha]
    exact ⟨a, List.mem_of_find?_eq_some ha, by simpa using List.find?_some ha, hresp,
      by show statusOf (get_product st pid) = 200; rw [hresp]; rfl⟩
  · show get_customer st cid = _ ↔ _
    unfold get_customer
    cases hf : st.customers.find? (fun c => c.id == cid) with
    | some c =>
        have hp := List.find?_some hf
        have hm : c ∈ st.customers := List.mem_of_find?_eq_some hf
        constructor
        · intro h
          exact absurd h (by simp)
        · intro h
          exact absurd (show c.id = cid by simpa using hp) (h c hm)
    | none =>
        simp only [true_iff]
        intro c hm
        simpa using List.find?_eq_none.mp hf c hm
  · rintro ⟨c, hm, hid⟩
    have hsome : (st.customers.find? (fun c => c.id == cid)).isSome := by
      rw [List.find?_isSome]
      exact ⟨c, hm, by simp [hid]⟩
    obtain ⟨a, ha⟩ := Option.isSome_iff_exists.mp hsome
    have hresp : get_customer st cid = Response.customerRec a := by
      unfold get_customer
      rw [ha]
    exact ⟨a, List.mem_of_find?_eq_some ha, by simpa using List.find?_some ha, hresp,
      by show statusOf (get_customer st cid) = 200; rw [hresp]; rfl⟩

/-- C6 witness: at the seed state, GET /order/no_such_id answers with the
404 error body. -/
theorem c6_witness :
    (handle ServiceState.initial (.getOrder "no_such_id") fresh0).1 =
      .notFound "Order not found" :=
  (c6_lookup_404_iff_missing ServiceState.initial "no_such_id" "x" "y" fresh0).1.mpr
    (by decide)

/-- C7: POST /purchase defaults a missing payment_method to "credit_card",
and every created purchase has payment_status "completed" regardless of
the body. -/
theorem c7_purchase_defaults (st : ServiceState) (d : PurchaseRequest) (fresh : Fresh) :
    (d.payment_method = none →
      (create_purchase st d fresh).1.payment_method = "credit_card") ∧
    (create_purchase st d fresh).1.payment_status = "completed" := by
  constructor
  · intro h
    simp [create_purchase, h]
  · rfl

/-- C7 witness: the spec demo body (amount 50, no payment_method) yields
payment_method "credit_card" and payment_status "completed". -/
theorem c7_witness :
    (create_purchase ServiceState.initial demoPurchaseReq fresh0).1.payment_method =
      "credit_card" ∧
    (create_purchase ServiceState.initial demoPurchaseReq fresh0).1.payment_status =
      "completed" :=
  ⟨(c7_purchase_defaults ServiceState.initial demoPurchaseReq fresh0).1 rfl,
   (c7_purchase_defaults ServiceState.initial demoPurchaseReq fresh0).2⟩

/-- C8: the validate_api_key decorator never rejects: for any endpoint and
any two header lists (differing in X-API-Key / X-Dummy-Auth or anything
else), the decorated handler's response is the same, namely exactly the
undecorated handler's response. -/
theorem c8_auth_headers_no_effect (st : ServiceState) (req : Request) (fresh : Fresh)
    (h1 h2 : List (String × String)) :
    (validate_api_key (fun r => handle st r fresh) h1 req).2 =
      (validate_api_key (fun r => handle st r fresh) h2 req).2 ∧
    (validate_api_key (fun r => handle st r fresh) h1 req).2 = handle st req fresh := by
  rw [validate_api_key_snd, validate_api_key_snd]
  exact ⟨rfl, rfl⟩

/-- C9: in POST /order bodies, an item without price contributes 0, an
item without quantity is counted once, and a body without items yields an
order with empty items and total 0, the request succeeding with 201. -/
theorem c9_order_request_defaults (st : ServiceState) (fresh : Fresh) (it : Item)
    (d : OrderRequest) :
    (it.price = none → itemContrib it = 0) ∧
    (it.quantity = none → itemContrib it = it.price.getD 0) ∧
    (d.items = none →
      (create_order st d fresh).1.items = [] ∧
      (create_order st d fresh).1.total = 0 ∧
      (handle st (.postOrder d) fresh).1 = .orderCreated (create_order st d fresh).1 ∧
      statusOf (handle st (.postOrder d) fresh).1 = 201) := by
  refine ⟨?_, ?_, ?_⟩
  · intro h
    simp [itemContrib, h]
  · intro h
    simp [itemContrib, h]
  · intro h
    refine ⟨?_, ?_, rfl, rfl⟩
    · simp [create_order, h]
    · simp [create_order, h]

/-- C9 witness: a priceless item contributes 0, a quantityless item of
price 7 contributes 7, and the empty body creates a total-0 order with
status code 201. -/
theorem c9_witness :
    itemContrib { product_id := none, name := none, quantity := some 3, price := none } = 0 ∧
    itemContrib { product_id := none, name := none, quantity := none, price := some 7 } = 7 ∧
    (create_order ServiceState.initial { customer_id := none, items := none } fresh0).1.total = 0 ∧
    statusOf (handle ServiceState.initial
      (.postOrder { customer_id := none, items := none }) fresh0).1 = 201 := by
  refine ⟨?_, ?_, ?_, ?_⟩
  · exact (c9_order_request_defaults ServiceState.initial fresh0
      { product_id := none, name := none, quantity := some 3, price := none }
      { customer_id := none, items := none }).1 rfl
  · have h := (c9_order_request_defaults ServiceState.initial fresh0
      { product_id := none, name := none, quantity := none, price := some 7 }
      { customer_id := none, items := none }).2.1 rfl
    simpa using h
  · exact ((c9_order_request_defaults ServiceState.initial fresh0
      { product_id := none, name := none, quantity := none, price := some 7 }
      { customer_id := none, items := none }).2.2 rfl).2.1
  · exact ((c9_order_request_defaults ServiceState.initial fresh0
      { product_id := none, name := none, quantity := none, price := some 7 }
      { customer_id := none, items := none }).2.2 rfl).2.2.2

end RetailDemo

namespace Provisioner

/-- C2: for a control plane reporting [CREATING, CREATING, READY] the
polling returns True after two fixed sleeps, for [CREATING, FAILED] it
returns False after one, and if no poll ever reports READY or FAILED it
returns False once the 300-second budget is exhausted. -/
theorem c2_polling_status_sequences (r1 r2 r3 : PollSeq)
    (h10 : r1 0 = .status "CREATING") (h11 : r1 1 = .status "CREATING")
    (h12 : r1 2 = .status "READY")
    (h20 : r2 0 = .status "CREATING") (h21 : r2 1 = .status "FAILED")
    (h3 : ∀ j, continues (r3 j)) :
    wait_for_gateway_ready r1 = true ∧
    wait_for_gateway_ready r2 = false ∧
    wait_for_gateway_ready r3 = false := by
  refine ⟨?_, ?_, ?_⟩
  · show wait_loop r1 300 0 0 = true
    rw [wait_loop_continue r1 300 0 0 (by norm_num) (by rw [h10]; exact ⟨by decide, by decide⟩)]
    rw [wait_loop_continue r1 300 10 1 (by norm_num) (by rw [h11]; exact ⟨by decide, by decide⟩)]
    exact wait_loop_ready r1 300 20 2 (by norm_num) h12
  · show wait_loop r2 300 0 0 = false
    rw [wait_loop_continue r2 300 0 0 (by norm_num) (by rw [h20]; exact ⟨by decide, by decide⟩)]
    exact wait_loop_failed r2 300 10 1 (by norm_num) h21
  · exact wait_loop_timeout r3 300 h3 300 0 0 (by norm_num)

/-- C2 witness: the three mocked status sequences evaluated concretely. -/
theorem c2_witness :
    wait_for_gateway_ready seqReady = true ∧
    wait_for_gateway_ready seqFailed = false ∧
    wait_for_gateway_ready seqStuck = false :=
  c2_polling_status_sequences seqReady seqFailed seqStuck rfl rfl rfl rfl rfl
    (fun _ => show continues (.status "CREATING") from ⟨by decide, by decide⟩)

/-- C3 counterexample: with the role absent and create_policy raising
EntityAlreadyExists, the function's return value is the role ARN reported
by create_role, not the reconstructed policy ARN
arn:aws:iam::(account):policy/(fixed-name). -/
theorem c3_claim_counterexample :
    envExists.getRole = none ∧ envExists.createPolicy = none ∧
    (get_or_create_service_role envExists "abc12345").returnedArn ≠
      "arn:aws:iam::123456789012:policy/AgentCoreGatewayPolicy-abc12345" := by
  refine ⟨rfl, rfl, ?_⟩
  decide

/-- C3 amended: when create_policy raises EntityAlreadyExists on the
role-creation path, the policy ARN attached to the new role equals
arn:aws:iam::(account):policy/(fixed policy name), reconstructed from the
caller's account id, and the function returns the ARN reported by
create_role. -/
theorem c3_policy_arn_reconstructed (env : IamEnv) (sfx : String)
    (hrole : env.getRole = none) (hpol : env.createPolicy = none) :
    (get_or_create_service_role env sfx).attachedPolicyArn =
      some ("arn:aws:iam::" ++ env.accountId ++ ":policy/" ++
        ("AgentCoreGatewayPolicy-" ++ sfx)) ∧
    (get_or_create_service_role env sfx).returnedArn = env.createRoleArn := by
  unfold get_or_create_service_role
  rw [hrole, hpol]
  exact ⟨rfl, rfl⟩

/-- C3 witness: the amended statement evaluated at the concrete
environment. -/
theorem c3_witness :
    (get_or_create_service_role envExists "abc12345").attachedPolicyArn =
      some ("arn:aws:iam::" ++ envExists.accountId ++ ":policy/" ++
        ("AgentCoreGatewayPolicy-" ++ "abc12345")) ∧
    (get_or_create_service_role envExists "abc12345").returnedArn =
      envExists.createRoleArn :=
  c3_policy_arn_reconstructed envExists "abc12345" rfl rfl

/-- C10: when every get_gateway call raises, no exception escapes
wait_for_gateway_ready: inside the budget each failed poll just costs one
10-second sleep and a retry, and at budget exhaustion the function
returns False. -/
theorem c10_exceptions_swallowed (r : PollSeq) (h : ∀ j, r j = .exn) :
    (∀ e i, e < 300 → wait_loop r 300 e i = wait_loop r 300 (e + 10) (i + 1)) ∧
    wait_for_gateway_ready r = false := by
  constructor
  · intro e i he
    exact wait_loop_continue r 300 e i he (by rw [h i]; trivial)
  · exact wait_loop_timeout r 300 (fun j => by rw [h j]; trivial) 300 0 0 (by norm_num)

/-- C10 witness: the always-raising control plane evaluated concretely. -/
theorem c10_witness :
    wait_for_gateway_ready seqExn = false :=
  (c10_exceptions_swallowed seqExn (fun _ => rfl)).2

end Provisioner
